import Mathlib

/-!
Shallow embedding of the oVirt/RHV upload nbdkit plugin
(`src/v2v/rhv-upload-plugin.py`).

The plugin drives a remote image-transfer lifecycle (create disk, create
transfer, poll phases, finalize or cancel) and translates block I/O
(read/write/zero/flush) into HTTP exchanges over a bounded connection
pool.  Time-and-network effects are made explicit: polling loops consume
a list of observations (a sampled clock value paired with the poll
result), HTTP responses are records of status / content-length / body
reads, and the connection pool is a list of connection ids.
-/

namespace RhvUpload

/-- Module-level constant `timeout = 5 * 60` (seconds), used both as the
polling deadline and, due to the name shadowing in
`UnixHTTPConnection.connect`, as the socket timeout value. -/
def module_timeout : Nat := 5 * 60

/-- Module-level constant `MAX_CONNECTIONS = 4`. -/
def MAX_CONNECTIONS : Nat := 4

/-- Phases of `ovirtsdk4.types.ImageTransferPhase` relevant to the plugin. -/
inductive ImageTransferPhase
  | INITIALIZING
  | TRANSFERRING
  | PAUSED_SYSTEM
  | PAUSED_USER
  | FINISHED_SUCCESS
  | FINISHED_FAILURE
  | CANCELLED
  | UNKNOWN
deriving DecidableEq, Repr

/-- Statuses of `ovirtsdk4.types.DiskStatus`. -/
inductive DiskStatus
  | ILLEGAL
  | LOCKED
  | OK
deriving DecidableEq, Repr

/-- Errors raised by `create_transfer`'s polling loop. -/
inductive CtErr
  | removed
  | hasFailed
  | paused
  | unexpectedPhase (p : ImageTransferPhase)
  | initTimeout
deriving DecidableEq, Repr

/-- One polling observation: the clock value `time.time()` sampled in that
iteration, and the result of `transfer_service.get()` (`none` models
`sdk.NotFoundError`). -/
abbrev PollObs := Nat × Option ImageTransferPhase

/-- Polling loop of `create_transfer` (lines 559-592).  Each iteration
sleeps, fetches the transfer, and checks, in source order: not-found,
`FINISHED_FAILURE`, `PAUSED_SYSTEM`, `TRANSFERRING`, any phase other than
`INITIALIZING`, then the deadline.  Returns the outcome paired with the
number of `transfer_service.cancel()` calls issued, or `none` if the
observation list ends before the loop settles. -/
def create_transfer_loop (endt : Nat) :
    List PollObs → Option (Except CtErr Unit × Nat)
  | [] => none
  | (t, obs) :: rest =>
    match obs with
    | none => some (.error .removed, 0)
    | some p =>
      if p = .FINISHED_FAILURE then some (.error .hasFailed, 0)
      else if p = .PAUSED_SYSTEM then some (.error .paused, 1)
      else if p = .TRANSFERRING then some (.ok (), 0)
      else if p ≠ .INITIALIZING then some (.error (.unexpectedPhase p), 1)
      else if t > endt then some (.error .initTimeout, 1)
      else create_transfer_loop endt rest

/-- Errors raised by `finalize_transfer`'s polling loop. -/
inductive FinErr
  | diskRemoved
  | diskBadStatus (s : DiskStatus)
  | transferFailed
  | transferPaused
  | finalizeTimeout (p : ImageTransferPhase)
deriving DecidableEq, Repr

/-- Polling loop of `finalize_transfer` (lines 647-699).  `diskObs` is the
result of the single `disk_service.get()` issued if the transfer is ever
found removed (`none` models `sdk.NotFoundError` on the disk as well).
Returns the outcome paired with the number of disk fetches performed, or
`none` if the observation list ends before the loop settles. -/
def finalize_loop (deadline : Nat) (diskObs : Option DiskStatus) :
    List PollObs → Option (Except FinErr Unit × Nat)
  | [] => none
  | (t, obs) :: rest =>
    match obs with
    | none =>
      match diskObs with
      | none => some (.error .diskRemoved, 1)
      | some .OK => some (.ok (), 1)
      | some s => some (.error (.diskBadStatus s), 1)
    | some p =>
      if p = .FINISHED_SUCCESS then some (.ok (), 0)
      else if p = .FINISHED_FAILURE then some (.error .transferFailed, 0)
      else if p = .PAUSED_SYSTEM then some (.error .transferPaused, 0)
      else if t > deadline then some (.error (.finalizeTimeout p), 0)
      else finalize_loop deadline diskObs rest

/-- Observable outcome of `close` (lines 362-396). -/
structure CloseResult where
  cancelCalled : Bool
  finalizeCalled : Bool
  diskFileWritten : Option String
  connClosed : Bool
  result : Except FinErr Unit
deriving Repr

/-- Embedding of `close` (lines 362-396): `failed` is the handle flag,
`disk_id` the disk identifier, and `fin` the outcome `finalize_transfer`
would produce if called.  A failed handle cancels and returns; otherwise
finalize is attempted, a finalize failure cancels and re-raises, and the
disk-id file is written only on finalize success.  The control-plane
connection is closed on every path. -/
def close_plugin (failed : Bool) (disk_id : String) (fin : Except FinErr Unit) :
    CloseResult :=
  if failed then
    { cancelCalled := true, finalizeCalled := false, diskFileWritten := none,
      connClosed := true, result := .ok () }
  else
    match fin with
    | .ok () =>
      { cancelCalled := false, finalizeCalled := true,
        diskFileWritten := some disk_id, connClosed := true, result := .ok () }
    | .error e =>
      { cancelCalled := true, finalizeCalled := true, diskFileWritten := none,
        connClosed := true, result := .error e }

/-- Protocol errors raised by `pread` via `request_failed`. -/
inductive PreadErr
  | badStatus (status : Nat)
  | badContentLength (got : Nat)
  | shortRead (got : Nat)
deriving DecidableEq, Repr

/-- HTTP GET response as `pread` observes it: status code, the parsed
`content-length` header, and the successive `r.readinto` return values. -/
structure GetResp where
  status : Nat
  contentLength : Nat
  reads : List Nat
deriving DecidableEq, Repr

/-- Body-reading loop of `pread` (lines 241-249): while `got < count`,
`readinto` the next chunk; a zero-length read raises a short-read error.
`readinto` on the view `view[got:]` can deposit at most `count - got`
bytes, hence the clamp.  Returns the final `got` on success, or `none` if
the modelled read list ends while the buffer is still unfilled. -/
def pread_loop (count : Nat) : Nat → List Nat → Option (Except PreadErr Nat)
  | got, [] => if got < count then none else some (.ok got)
  | got, n :: rest =>
    if got < count then
      if n = 0 then some (.error (.shortRead got))
      else pread_loop count (got + min n (count - got)) rest
    else some (.ok got)

/-- Range header sent by `pread` (line 222):
`bytes=offset-(offset+count-1)`. -/
def pread_range_header (offset count : Nat) : String :=
  "bytes=" ++ toString offset ++ "-" ++ toString (offset + count - 1)

/-- Embedding of `pread` (lines 219-249): requires status 206, requires
the reported content length to equal the request size, then runs the
body-reading loop. -/
def pread (count : Nat) (r : GetResp) : Option (Except PreadErr Nat) :=
  if r.status ≠ 206 then some (.error (.badStatus r.status))
  else if r.contentLength ≠ count then
    some (.error (.badContentLength r.contentLength))
  else pread_loop count 0 r.reads

/-- Value of `nbdkit.FLAG_FUA` (the force-unit-access bit of the `flags`
word passed by nbdkit to `pwrite`/`zero`). -/
def FLAG_FUA : Nat := 2

/-- Flush selector of `pwrite` (line 256): `"y"` iff the handle advertises
`can_flush` and the FUA bit is set in `flags`. -/
def pwrite_flush_flag (can_flush : Bool) (flags : Nat) : String :=
  if can_flush ∧ flags &&& FLAG_FUA ≠ 0 then "y" else "n"

/-- Request path of `pwrite`'s PUT (line 259): the handle path with the
`flush=y|n` query flag appended. -/
def pwrite_request_path (path : String) (can_flush : Bool) (flags : Nat) :
    String :=
  path ++ "?flush=" ++ pwrite_flush_flag can_flush flags

/-- Protocol error raised when an HTTP response status is unexpected. -/
inductive HttpErr
  | requestFailed (status : Nat)
deriving DecidableEq, Repr

/-- Status check of `pwrite` (lines 272-276): any status other than 200
raises via `request_failed`. -/
def pwrite_check_status (status : Nat) : Except HttpErr Unit :=
  if status ≠ 200 then .error (.requestFailed status) else .ok ()

/-- Chunk size of `emulate_zero`'s reusable buffer: `128 * 1024`. -/
def ZERO_CHUNK : Nat := 128 * 1024

/-- Sizes of the successive `http.send` bodies issued by `emulate_zero`
(lines 324-328): full `ZERO_CHUNK` sends while more than a chunk remains,
then one final send of whatever remains. -/
def emulate_zero_chunks (count : Nat) : List Nat :=
  if ZERO_CHUNK < count then
    ZERO_CHUNK :: emulate_zero_chunks (count - ZERO_CHUNK)
  else [count]
termination_by count
decreasing_by
  have hc : 0 < ZERO_CHUNK := by decide
  omega

/-- Snapshot of the connection pool: connections idle in the queue and
connections currently checked out. -/
structure PoolState where
  idle : List Nat
  checkedOut : List Nat
deriving DecidableEq, Repr

/-- Conservation predicate for a pool of capacity `n`: every connection is
either idle or checked out. -/
def conserves (n : Nat) (s : PoolState) : Prop :=
  s.idle.length + s.checkedOut.length = n

instance (n : Nat) (s : PoolState) : Decidable (conserves n s) := by
  unfold conserves; infer_instance

/-- Pool snapshots traversed by `http_context` (lines 738-749) on a
non-empty pool: before the `pool.get()`, while the borrowed connection is
in use, and after the `finally` branch executes `pool.put(http)`.  The
queue yields from the front and receives at the back. -/
def http_context_states (pool : List Nat) : List PoolState :=
  match pool with
  | [] => [⟨[], []⟩]
  | c :: rest => [⟨c :: rest, []⟩, ⟨rest, [c]⟩, ⟨rest ++ [c], []⟩]

/-- Pool contents after `http_context` exits.  `bodyRaises` records
whether the borrowing operation raised: the `finally` clause puts the
connection back either way, so the parameter cannot influence the
result. -/
def http_context_final (pool : List Nat) (bodyRaises : Bool) : List Nat :=
  match pool, bodyRaises with
  | [], _ => []
  | c :: rest, _ => rest ++ [c]

/-- Pool snapshots traversed by `iter_http_pool` (lines 752-773): the
locking loop takes connections out one at a time until all
`h["connections"]` are collected, the generator yields with the pool
empty, and the `finally` loop puts every collected connection back. -/
def iter_http_pool_states (pool : List Nat) : List PoolState :=
  ((List.range (pool.length + 1)).map fun k => ⟨pool.drop k, pool.take k⟩)
  ++ ((List.range (pool.length + 1)).map fun j => ⟨pool.take j, pool.drop j⟩)

/-- Pool snapshot at which `iter_http_pool` yields connections to its
caller: everything is checked out, nothing is idle. -/
def iter_http_pool_yield_state (pool : List Nat) : PoolState :=
  ⟨[], pool⟩

/-- Initial value of the handle's `failed` flag as set by `open`
(line 165). -/
def open_initial_failed : Bool := false

/-- Embedding of the `failing` decorator (lines 103-117): runs the wrapped
operation and returns its outcome together with the new value of the
handle's `failed` flag — set to `True` if the operation raised, left
untouched otherwise. -/
def failing_wrap {E A : Type} (failed : Bool) (res : Except E A) :
    Except E A × Bool :=
  match res with
  | .ok a => (.ok a, failed)
  | .error e => (.error e, true)

/-- Transport objects `create_http` can build. -/
inductive Transport
  | unixConn (path : String)
  | httpsConn (hostname : String) (port : Nat) (insecure : Bool)
  | httpConn (hostname : String) (port : Nat)
deriving DecidableEq, Repr

/-- The parsed transfer URL fields `create_http` consumes. -/
structure Url where
  scheme : String
  hostname : String
  port : Nat
deriving DecidableEq, Repr

/-- Network branch of `create_http` (lines 827-843): HTTPS with a TLS
context (hostname/certificate checks disabled when insecure), plain HTTP,
or a configuration error for any other scheme. -/
def create_http_network (url : Url) (insecure : Bool) : Except String Transport :=
  if url.scheme = "https" then .ok (.httpsConn url.hostname url.port insecure)
  else if url.scheme = "http" then .ok (.httpConn url.hostname url.port)
  else .error ("unknown URL scheme (" ++ url.scheme ++ ")")

/-- Embedding of `create_http` (lines 813-843).  A truthy `unix_socket`
(present and non-empty) selects the local-socket attempt;
`unixConnectFails` records whether building `UnixHTTPConnection` raised,
in which case the except clause logs and falls through to the network
branch. -/
def create_http (url : Url) (insecure : Bool) (unix_socket : Option String)
    (unixConnectFails : Bool) : Except String Transport :=
  match unix_socket with
  | some path =>
    if path ≠ "" then
      if unixConnectFails then create_http_network url insecure
      else .ok (.unixConn path)
    else create_http_network url insecure
  | none => create_http_network url insecure

/-- Constructor-supplied timeout of `UnixHTTPConnection`: either the
sentinel `socket._GLOBAL_DEFAULT_TIMEOUT` (the default) or an explicit
number of seconds. -/
inductive CtorTimeout
  | defaultSentinel
  | explicitVal (t : Nat)
deriving DecidableEq, Repr

/-- Timeout applied to the socket by `UnixHTTPConnection.connect`
(lines 410-414): `settimeout` is called only when `self.timeout` is not
the sentinel, and the value passed is the module-level `timeout` constant
(the bare name `timeout` resolves to the global, not to the instance
attribute). -/
def unix_connect_settimeout (ctor : CtorTimeout) : Option Nat :=
  match ctor with
  | .defaultSentinel => none
  | .explicitVal _ => some module_timeout

/-! ## Theorems -/

/-- C1: In `create_transfer`'s polling loop, for every polled phase:
`TRANSFERRING` ends the wait successfully with no cancel; `FINISHED_FAILURE`
raises with no cancel; `PAUSED_SYSTEM` issues exactly one cancel and raises;
any phase other than `INITIALIZING`/`TRANSFERRING` (and the two above) issues
exactly one cancel and raises; and exceeding the deadline while still
`INITIALIZING` issues one cancel and raises a timeout error. -/
theorem c1_create_transfer_poll (endt t : Nat) (p : ImageTransferPhase)
    (rest : List PollObs) :
    (p = .TRANSFERRING →
      create_transfer_loop endt ((t, some p) :: rest) = some (.ok (), 0)) ∧
    (p = .FINISHED_FAILURE →
      create_transfer_loop endt ((t, some p) :: rest) =
        some (.error .hasFailed, 0)) ∧
    (p = .PAUSED_SYSTEM →
      create_transfer_loop endt ((t, some p) :: rest) =
        some (.error .paused, 1)) ∧
    (p ≠ .INITIALIZING → p ≠ .TRANSFERRING → p ≠ .PAUSED_SYSTEM →
      p ≠ .FINISHED_FAILURE →
      create_transfer_loop endt ((t, some p) :: rest) =
        some (.error (.unexpectedPhase p), 1)) ∧
    (p = .INITIALIZING → endt < t →
      create_transfer_loop endt ((t, some p) :: rest) =
        some (.error .initTimeout, 1)) := by
  refine ⟨?_, ?_, ?_, ?_, ?_⟩
  · rintro rfl; simp [create_transfer_loop]
  · rintro rfl; simp [create_transfer_loop]
  · rintro rfl; simp [create_transfer_loop]
  · intro h1 h2 h3 h4
    cases p <;> simp_all [create_transfer_loop]
  · rintro rfl ht; simp [create_transfer_loop, ht]

/-- Witness for C1 at a concrete unexpected phase. -/
theorem c1_create_transfer_poll_witness :
    create_transfer_loop 10 [(5, some .FINISHED_SUCCESS)] =
      some (.error (.unexpectedPhase .FINISHED_SUCCESS), 1) :=
  (c1_create_transfer_poll 10 5 .FINISHED_SUCCESS []).2.2.2.1
    (by decide) (by decide) (by decide) (by decide)

/-- Helper: every settled run of `finalize_loop` performs at most one disk
fetch (the loop stops at the first not-found observation). -/
theorem finalize_loop_fetch_le_one (deadline : Nat) (d : Option DiskStatus) :
    ∀ (obs : List PollObs) (r : Except FinErr Unit) (c : Nat),
      finalize_loop deadline d obs = some (r, c) → c ≤ 1 := by
  intro obs
  induction obs with
  | nil => intro r c h; simp [finalize_loop] at h
  | cons head tl ih =>
    obtain ⟨t, o⟩ := head
    intro r c h
    cases o with
    | none =>
      cases d with
      | none => simp [finalize_loop] at h; omega
      | some s => cases s <;> simp [finalize_loop] at h <;> omega
    | some p =>
      simp only [finalize_loop] at h
      split_ifs at h with h1 h2 h3 h4
      · simp at h; omega
      · simp at h; omega
      · simp at h; omega
      · simp at h; omega
      · exact ih r c h

/-- C2: When `finalize_transfer`'s polling loop observes the transfer object
not-found, it fetches the Disk exactly once and settles immediately: disk
also not found raises, disk status `OK` succeeds, and any other disk status
raises an error reporting that status; no settled run ever fetches the disk
more than once. -/
theorem c2_finalize_disk_check (deadline t : Nat) (d : Option DiskStatus)
    (rest : List PollObs) :
    (d = none →
      finalize_loop deadline d ((t, none) :: rest) =
        some (.error .diskRemoved, 1)) ∧
    (d = some .OK →
      finalize_loop deadline d ((t, none) :: rest) = some (.ok (), 1)) ∧
    (∀ s, s ≠ DiskStatus.OK → d = some s →
      finalize_loop deadline d ((t, none) :: rest) =
        some (.error (.diskBadStatus s), 1)) ∧
    (∀ (obs : List PollObs) (r : Except FinErr Unit) (c : Nat),
      finalize_loop deadline d obs = some (r, c) → c ≤ 1) := by
  refine ⟨?_, ?_, ?_, finalize_loop_fetch_le_one deadline d⟩
  · rintro rfl; simp [finalize_loop]
  · rintro rfl; simp [finalize_loop]
  · rintro s hs rfl; cases s <;> simp_all [finalize_loop]

/-- Witness for C2 at a concrete non-OK disk status. -/
theorem c2_finalize_disk_check_witness :
    finalize_loop 10 (some .ILLEGAL) [(5, none)] =
      some (.error (.diskBadStatus .ILLEGAL), 1) :=
  (c2_finalize_disk_check 10 5 (some .ILLEGAL) []).2.2.1 .ILLEGAL
    (by decide) rfl

/-- C3: `close` writes the disk identifier verbatim to the disk-id file iff
the handle is not failed and finalize succeeds; when the handle is failed, or
finalize raises, the file is not written and a cancel call is issued, with
the finalize error propagating. -/
theorem c3_close_disk_id_file (failed : Bool) (disk_id : String)
    (fin : Except FinErr Unit) :
    ((close_plugin failed disk_id fin).diskFileWritten = some disk_id ↔
      failed = false ∧ fin = .ok ()) ∧
    (failed = true →
      (close_plugin failed disk_id fin).cancelCalled = true ∧
      (close_plugin failed disk_id fin).diskFileWritten = none) ∧
    (∀ e, failed = false → fin = .error e →
      (close_plugin failed disk_id fin).cancelCalled = true ∧
      (close_plugin failed disk_id fin).diskFileWritten = none ∧
      (close_plugin failed disk_id fin).result = .error e) := by
  cases failed <;> rcases fin with e | ⟨⟩ <;> simp [close_plugin]

/-- Witness for C3: a failed handle cancels and leaves the file unwritten. -/
theorem c3_close_disk_id_file_witness :
    (close_plugin true "uuid" (.ok ())).cancelCalled = true ∧
    (close_plugin true "uuid" (.ok ())).diskFileWritten = none :=
  (c3_close_disk_id_file true "uuid" (.ok ())).2.1 rfl

/-- C5: `pwrite`'s outgoing request path carries `flush=y` exactly when the
FUA bit of `flags` is set and the handle's `can_flush` capability is true,
and `flush=n` in every other case; a response status other than 200 raises a
protocol error, and 200 succeeds. -/
theorem c5_pwrite_flush_query (can_flush : Bool) (flags : Nat) (path : String)
    (status : Nat) :
    (pwrite_request_path path can_flush flags =
      path ++ "?flush=" ++ pwrite_flush_flag can_flush flags) ∧
    (pwrite_flush_flag can_flush flags = "y" ↔
      can_flush = true ∧ flags &&& FLAG_FUA ≠ 0) ∧
    (pwrite_flush_flag can_flush flags = "n" ↔
      ¬(can_flush = true ∧ flags &&& FLAG_FUA ≠ 0)) ∧
    (status ≠ 200 →
      pwrite_check_status status = .error (.requestFailed status)) ∧
    (status = 200 → pwrite_check_status status = .ok ()) := by
  refine ⟨rfl, ?_, ?_, ?_, ?_⟩
  · constructor
    · intro hy
      by_contra hcon
      rw [pwrite_flush_flag, if_neg hcon] at hy
      exact absurd hy (by decide)
    · intro hc
      rw [pwrite_flush_flag, if_pos hc]
  · constructor
    · intro hn hc
      rw [pwrite_flush_flag, if_pos hc] at hn
      exact absurd hn (by decide)
    · intro hc
      rw [pwrite_flush_flag, if_neg hc]
  · intro hs; simp [pwrite_check_status, hs]
  · rintro rfl; simp [pwrite_check_status]

/-- Witness for C5: FUA set with `can_flush` true yields `flush=y`. -/
theorem c5_pwrite_flush_query_witness :
    pwrite_flush_flag true 2 = "y" :=
  (c5_pwrite_flush_query true 2 "/images/ticket" 200).2.1.2 (by decide)

/-- C8: The handle's `failed` flag starts false at `open`; the `failing`
wrapper sets it to true whenever the wrapped operation raises and never
resets it (a true flag stays true, a successful operation leaves the flag
unchanged); and `close` selects its cleanup path from the flag: cancel
without finalize when true, finalize when false. -/
theorem c8_failed_flag_sticky :
    open_initial_failed = false ∧
    (∀ (failed : Bool) (res : Except HttpErr Unit),
      failed = true → (failing_wrap failed res).2 = true) ∧
    (∀ (failed : Bool) (e : HttpErr),
      (failing_wrap failed (Except.error e : Except HttpErr Unit)).2 = true) ∧
    (∀ (failed : Bool),
      (failing_wrap failed (Except.ok () : Except HttpErr Unit)).2 = failed) ∧
    (∀ (d : String) (fin : Except FinErr Unit),
      (close_plugin true d fin).cancelCalled = true ∧
      (close_plugin true d fin).finalizeCalled = false) ∧
    (∀ (d : String) (fin : Except FinErr Unit),
      (close_plugin false d fin).finalizeCalled = true) := by
  refine ⟨rfl, ?_, ?_, ?_, ?_, ?_⟩
  · rintro failed res rfl; cases res <;> rfl
  · intro failed e; rfl
  · intro failed; rfl
  · intro d fin; exact ⟨rfl, rfl⟩
  · intro d fin; rcases fin with e | ⟨⟩ <;> rfl

/-- Witness for C8: a raised error inside an already-failed handle keeps the
flag true. -/
theorem c8_failed_flag_sticky_witness :
    (failing_wrap true (Except.ok () : Except HttpErr Unit)).2 = true :=
  c8_failed_flag_sticky.2.1 true (Except.ok ()) rfl

/-- C9: When a truthy local-socket path is supplied, `create_http` returns
the Unix-socket transport if the attempt succeeds, and on any failure of
that attempt silently falls back to exactly the network transport; with a
valid http/https scheme the fallback yields a transport rather than an
error, so a local-socket failure never aborts session setup. -/
theorem c9_create_http_unix_fallback (url : Url) (insecure : Bool)
    (path : String) (hpath : path ≠ "") :
    (create_http url insecure (some path) false = .ok (.unixConn path)) ∧
    (create_http url insecure (some path) true =
      create_http_network url insecure) ∧
    (url.scheme = "https" ∨ url.scheme = "http" →
      ∃ tr, create_http url insecure (some path) true = .ok tr) := by
  refine ⟨?_, ?_, ?_⟩
  · simp [create_http, hpath]
  · simp [create_http, hpath]
  · rintro (hs | hs) <;>
      simp [create_http, create_http_network, hpath, hs]

/-- Witness for C9: a failed Unix-socket attempt over an https URL still
produces a transport. -/
theorem c9_create_http_unix_fallback_witness :
    create_http ⟨"https", "engine.example.com", 54322⟩ false
        (some "/run/imageio.sock") true =
      create_http_network ⟨"https", "engine.example.com", 54322⟩ false :=
  (c9_create_http_unix_fallback ⟨"https", "engine.example.com", 54322⟩ false
    "/run/imageio.sock" (by decide)).2.1

/-- C10: For every `UnixHTTPConnection` built with an explicit timeout
argument `t` (not the socket default sentinel), `connect` sets the socket
timeout to the module-level constant (300 seconds), never to `t`; the
constructor argument only determines whether `settimeout` is called at
all. -/
theorem c10_unix_connect_timeout (t : Nat) :
    unix_connect_settimeout (.explicitVal t) = some module_timeout ∧
    module_timeout = 300 ∧
    (t ≠ module_timeout →
      unix_connect_settimeout (.explicitVal t) ≠ some t) ∧
    unix_connect_settimeout .defaultSentinel = none := by
  refine ⟨rfl, rfl, ?_, rfl⟩
  intro ht hc
  exact ht (Option.some_injective _ hc).symm

/-- Witness for C10: explicit timeout 5 still yields socket timeout 300. -/
theorem c10_unix_connect_timeout_witness :
    unix_connect_settimeout (.explicitVal 5) ≠ some 5 :=
  (c10_unix_connect_timeout 5).2.2.1 (by decide)

/-- Helper: if `pread_loop` starts at or below `count` and returns
successfully, the final byte count is exactly `count`. -/
theorem pread_loop_ok_eq_count (count : Nat) :
    ∀ (reads : List Nat) (got g : Nat), got ≤ count →
      pread_loop count got reads = some (.ok g) → g = count := by
  intro reads
  induction reads with
  | nil =>
    intro got g hle h
    simp only [pread_loop] at h
    split_ifs at h with hlt
    simp at h
    omega
  | cons n rest ih =>
    intro got g hle h
    simp only [pread_loop] at h
    split_ifs at h with hlt hz
    · simp at h
    · exact ih (got + min n (count - got)) g (by omega) h
    · simp at h; omega

/-- Helper: a zero-length body read while the buffer is still unfilled
raises a short-read protocol error. -/
theorem pread_loop_zero_read (count got : Nat) (rest : List Nat)
    (hlt : got < count) :
    pread_loop count got (0 :: rest) = some (.error (.shortRead got)) := by
  simp [pread_loop, hlt]

/-- C4: `pread` raises a protocol error unless the GET response status is
206 and the reported content length equals the requested length; a
zero-length body read before the buffer is full raises a short-read
protocol error; and on success exactly `count` bytes have been read into
the buffer. -/
theorem c4_pread_contract (count : Nat) (r : GetResp) :
    (r.status ≠ 206 → pread count r = some (.error (.badStatus r.status))) ∧
    (r.status = 206 → r.contentLength ≠ count →
      pread count r = some (.error (.badContentLength r.contentLength))) ∧
    (∀ g, pread count r = some (.ok g) → g = count) ∧
    (∀ rest, r.status = 206 → r.contentLength = count → 0 < count →
      r.reads = 0 :: rest →
      pread count r = some (.error (.shortRead 0))) := by
  refine ⟨?_, ?_, ?_, ?_⟩
  · intro hs; simp [pread, hs]
  · intro hs hc; simp [pread, hs, hc]
  · intro g h
    simp only [pread] at h
    split_ifs at h with h1 h2
    · simp at h
    · simp at h
    · exact pread_loop_ok_eq_count count r.reads 0 g (Nat.zero_le count) h
  · intro rest hs hc hcount hreads
    simp [pread, hs, hc, hreads, pread_loop_zero_read count 0 rest hcount]

/-- Witness for C4: a 200 response to the ranged GET is a protocol error. -/
theorem c4_pread_contract_witness :
    pread 512 ⟨200, 512, [512]⟩ = some (.error (.badStatus 200)) :=
  (c4_pread_contract 512 ⟨200, 512, [512]⟩).1 (by decide)

/-- Helper: the chunk list of `emulate_zero` is never empty (the final send
always happens, possibly with zero bytes). -/
theorem emulate_zero_chunks_ne_nil (S : Nat) : emulate_zero_chunks S ≠ [] := by
  rw [emulate_zero_chunks]
  split_ifs <;> simp

/-- Helper: the chunk sizes of `emulate_zero` sum to the requested count. -/
theorem emulate_zero_chunks_sum (S : Nat) : (emulate_zero_chunks S).sum = S := by
  induction S using Nat.strong_induction_on with
  | _ S ih =>
    rw [emulate_zero_chunks]
    split_ifs with h
    · have hc : 0 < ZERO_CHUNK := by decide
      rw [List.sum_cons, ih (S - ZERO_CHUNK) (by omega)]
      omega
    · simp

/-- Helper: every chunk before the last one is a full `ZERO_CHUNK`. -/
theorem emulate_zero_chunks_dropLast (S : Nat) :
    ∀ c ∈ (emulate_zero_chunks S).dropLast, c = ZERO_CHUNK := by
  induction S using Nat.strong_induction_on with
  | _ S ih =>
    rw [emulate_zero_chunks]
    split_ifs with h
    · intro c hc
      obtain ⟨b, l, hbl⟩ :=
        List.exists_cons_of_ne_nil (emulate_zero_chunks_ne_nil (S - ZERO_CHUNK))
      rw [hbl, List.dropLast_cons₂] at hc
      rcases List.mem_cons.mp hc with rfl | hc'
      · rfl
      · have hcz : 0 < ZERO_CHUNK := by decide
        have := ih (S - ZERO_CHUNK) (by omega) c
        rw [hbl] at this
        exact this hc'
    · intro c hc; simp at hc

/-- Helper: the last chunk of `emulate_zero` is `S mod ZERO_CHUNK`, or a
full chunk when `S` is a positive multiple of `ZERO_CHUNK`. -/
theorem emulate_zero_chunks_getLast (S : Nat) :
    (emulate_zero_chunks S).getLast? =
      some (if S % ZERO_CHUNK = 0 ∧ 0 < S then ZERO_CHUNK
            else S % ZERO_CHUNK) := by
  induction S using Nat.strong_induction_on with
  | _ S ih =>
    have hcz : 0 < ZERO_CHUNK := by decide
    by_cases h : ZERO_CHUNK < S
    · rw [emulate_zero_chunks, if_pos h]
      obtain ⟨b, l, hbl⟩ :=
        List.exists_cons_of_ne_nil (emulate_zero_chunks_ne_nil (S - ZERO_CHUNK))
      have hrec := ih (S - ZERO_CHUNK) (by omega)
      rw [hbl, List.getLast?_cons_cons, ← hbl, hrec]
      have hmod : (S - ZERO_CHUNK) % ZERO_CHUNK = S % ZERO_CHUNK :=
        (Nat.mod_eq_sub_mod (Nat.le_of_lt h)).symm
      have hpos : 0 < S - ZERO_CHUNK := by omega
      have hpos' : 0 < S := by omega
      by_cases hm : S % ZERO_CHUNK = 0
      · have h1 : (S - ZERO_CHUNK) % ZERO_CHUNK = 0 := hmod.trans hm
        rw [if_pos ⟨h1, hpos⟩, if_pos ⟨hm, hpos'⟩]
      · have h1 : ¬(S - ZERO_CHUNK) % ZERO_CHUNK = 0 := by
          rw [hmod]; exact hm
        rw [if_neg fun hcon => h1 hcon.1, if_neg fun hcon => hm hcon.1, hmod]
    · rw [emulate_zero_chunks, if_neg h]
      rw [Nat.not_lt] at h
      rcases Nat.lt_or_ge S ZERO_CHUNK with hlt | hge
      · have hm : S % ZERO_CHUNK = S := Nat.mod_eq_of_lt hlt
        by_cases hz : S = 0
        · subst hz; simp
        · have hcon : ¬(S % ZERO_CHUNK = 0 ∧ 0 < S) :=
            fun hcon => hz (hm ▸ hcon.1)
          rw [if_neg hcon, hm]
          rfl
      · have heq : S = ZERO_CHUNK := Nat.le_antisymm h hge
        subst heq
        rw [if_pos ⟨Nat.mod_self _, hcz⟩]
        rfl

/-- C6: Every emulated Zero of size `S` sends request-body bytes totalling
exactly `S`: full 128 KiB chunks followed by a final chunk of size
`S mod 128 KiB`, or a full 128 KiB final chunk when `S` is a positive
multiple of 128 KiB. -/
theorem c6_emulate_zero_chunking (S : Nat) :
    (emulate_zero_chunks S).sum = S ∧
    (∀ c ∈ (emulate_zero_chunks S).dropLast, c = ZERO_CHUNK) ∧
    (emulate_zero_chunks S).getLast? =
      some (if S % ZERO_CHUNK = 0 ∧ 0 < S then ZERO_CHUNK
            else S % ZERO_CHUNK) ∧
    ZERO_CHUNK = 128 * 1024 :=
  ⟨emulate_zero_chunks_sum S, emulate_zero_chunks_dropLast S,
    emulate_zero_chunks_getLast S, rfl⟩

/-- C7: The pool conserves its `N` connections.  Every snapshot traversed by
`http_context` and by `iter_http_pool` satisfies `idle + checkedOut = N`;
the pool after `http_context` exits holds the same connections as before,
whether or not the borrowing operation raised; `iter_http_pool` yields only
once all `N` connections are collected (its yield snapshot checks out the
whole pool) and its last snapshot has all `N` connections back idle. -/
theorem c7_pool_conservation (pool : List Nat) (hne : pool ≠ []) :
    (∀ s ∈ http_context_states pool, conserves pool.length s) ∧
    (∀ b, (http_context_final pool b).Perm pool ∧
      (http_context_final pool b).length = pool.length) ∧
    (http_context_final pool true = http_context_final pool false) ∧
    (∀ s ∈ iter_http_pool_states pool, conserves pool.length s) ∧
    (iter_http_pool_yield_state pool ∈ iter_http_pool_states pool ∧
      (iter_http_pool_yield_state pool).checkedOut = pool ∧
      (iter_http_pool_yield_state pool).idle = []) ∧
    (iter_http_pool_states pool).getLast? = some ⟨pool, []⟩ := by
  refine ⟨?_, ?_, ?_, ?_, ?_, ?_⟩
  · rcases pool with _ | ⟨c, rest⟩
    · exact absurd rfl hne
    · intro s hs
      simp only [http_context_states, List.mem_cons,
        List.not_mem_nil, or_false] at hs
      rcases hs with rfl | rfl | rfl <;> simp [conserves]
  · intro b
    rcases pool with _ | ⟨c, rest⟩
    · exact absurd rfl hne
    · exact ⟨List.perm_append_singleton c rest, by simp [http_context_final]⟩
  · cases pool <;> rfl
  · intro s hs
    simp only [iter_http_pool_states, List.mem_append, List.mem_map,
      List.mem_range] at hs
    rcases hs with ⟨k, hk, rfl⟩ | ⟨j, hj, rfl⟩ <;> simp [conserves] <;> omega
  · refine ⟨?_, rfl, rfl⟩
    simp only [iter_http_pool_states, List.mem_append]
    left
    refine List.mem_map.mpr ⟨pool.length, List.mem_range.mpr (by omega), ?_⟩
    simp [iter_http_pool_yield_state]
  · rw [iter_http_pool_states, List.range_succ]
    simp only [List.map_append, List.map_cons, List.map_nil]
    rw [← List.append_assoc, List.getLast?_concat]
    simp

/-- Witness for C7 on a concrete three-connection pool. -/
theorem c7_pool_conservation_witness :
    (∀ s ∈ http_context_states [7, 8, 9], conserves 3 s) ∧
    (iter_http_pool_states [7, 8, 9]).getLast? = some ⟨[7, 8, 9], []⟩ := by
  have h := c7_pool_conservation [7, 8, 9] (by decide)
  exact ⟨h.1, h.2.2.2.2.2⟩

end RhvUpload
